import Mathlib

/-!
Verification of the sotopia structured-generation pipeline and the
tick-driven agent decision loop, as a shallow embedding of
`sotopia/generation_utils/generate.py` and
`sotopia/experimental/agents/llm_agent.py`.

The language-model provider is modelled as an oracle `provider : Nat → String`
giving the text returned by the n-th provider invocation of a pipeline call;
`json.loads` on the sanitized decision text is modelled as an oracle
`decode : String → Option Decision` (`none` models a `JSONDecodeError`).
-/

namespace Sotopia

/-- The whitespace characters stripped by CPython's `int()` and `str.strip()`
(ASCII subset; the sources only ever exercise ASCII whitespace). -/
def isPyWs (c : Char) : Bool :=
  c = ' ' || c = '\t' || c = '\n' || c = '\r' || c = '\x0b' || c = '\x0c'

def digitVal (c : Char) : Nat := c.toNat - 48

/-- Digits of a base-10 integer literal after the first digit, allowing single
underscores between digits, as CPython's `int()` does (`1_0` is 10, `1__0`,
`1_` and `_1` are errors). `acc` is the value of the digits already read. -/
def digitsVal : List Char → Nat → Option Nat
  | [], acc => some acc
  | '_' :: c :: rest, acc =>
      if c.isDigit then digitsVal rest (acc * 10 + digitVal c) else none
  | c :: rest, acc =>
      if c.isDigit then digitsVal rest (acc * 10 + digitVal c) else none

/-- A nonempty digit sequence (underscore-grouped), the mandatory part of an
`int()` literal after the optional sign. -/
def startDigits : List Char → Option Nat
  | [] => none
  | c :: rest => if c.isDigit then digitsVal rest (digitVal c) else none

def pyStripWs (l : List Char) : List Char :=
  ((l.dropWhile isPyWs).reverse.dropWhile isPyWs).reverse

/-- The sign-and-digits part of an `int()` literal. -/
def pyIntCore : List Char → Option Int
  | '+' :: rest => (startDigits rest).map Int.ofNat
  | '-' :: rest => (startDigits rest).map (fun n => -(n : Int))
  | l => (startDigits l).map Int.ofNat

/-- Modelled from CPython's builtin `int(str)` (base 10, ASCII inputs):
optional surrounding whitespace, optional sign, a nonempty digit sequence with
optional single underscores between digits. `none` models a `ValueError`. -/
def pyInt (s : String) : Option Int := pyIntCore (pyStripWs s.data)

/-- The body of one match of the regex `\x7b(.*?)\x7d`: the shortest run of
characters up to the first closing brace, failing if a newline (which `.` does
not match) or the end of input comes first.  Returns the captured characters
and the input after the closing brace. -/
def grabContent : List Char → Option (List Char × List Char)
  | [] => none
  | '}' :: tail => some ([], tail)
  | '\n' :: _ => none
  | c :: rest =>
      match grabContent rest with
      | some (content, tail) => some (c :: content, tail)
      | none => none

/-- Fueled scan implementing `re.findall` for the placeholder regex: at each
position try to match an opening brace followed by the shortest brace-free,
newline-free run and a closing brace; on success resume after the match, on
failure resume at the next character.  The fuel is an upper bound on the
remaining input length, so `scanPh` below never exhausts it. -/
def scanPhF : Nat → List Char → List String
  | 0, _ => []
  | _ + 1, [] => []
  | fuel + 1, '{' :: rest =>
      match grabContent rest with
      | some (content, tail) => String.mk content :: scanPhF fuel tail
      | none => scanPhF fuel rest
  | fuel + 1, _ :: rest => scanPhF fuel rest

/-- `re.findall(r"\x7b(.*?)\x7d", template)`: the placeholder names of a
template, in order of occurrence. -/
def scanPh (l : List Char) : List String := scanPhF l.length l

/-- Lexicographic comparison of strings by code point, as Python compares
strings. -/
def charListLe : List Char → List Char → Bool
  | [], _ => true
  | _ :: _, [] => false
  | a :: as, b :: bs =>
      if a.toNat < b.toNat then true
      else if b.toNat < a.toNat then false
      else charListLe as bs

def pyStrLe (a b : String) : Bool := charListLe a.data b.data

def insertSorted (x : String) : List String → List String
  | [] => [x]
  | y :: ys => if pyStrLe x y then x :: y :: ys else y :: insertSorted x ys

/-- Python's `sorted` on a list of strings (ascending lexicographic order). -/
def sortStrings : List String → List String
  | [] => []
  | x :: xs => insertSorted x (sortStrings xs)

/-- Python `str.split(" ")`: cut at every space character, keeping empty
pieces (so `""` splits to `[""]` and consecutive spaces produce empties). -/
def splitOnSpaceAux : List Char → List Char → List (List Char)
  | [], acc => [acc.reverse]
  | ' ' :: rest, acc => acc.reverse :: splitOnSpaceAux rest []
  | c :: rest, acc => splitOnSpaceAux rest (c :: acc)

def splitOnSpace (s : String) : List String :=
  (splitOnSpaceAux s.data []).map String.mk

/-- Python `str.replace(pat, "")` for a nonempty `pat`: delete every
non-overlapping occurrence, scanning left to right.  The fuel is an upper
bound on the remaining input length, never exhausted by `removeAll`. -/
def removeAllF (pat : List Char) : Nat → List Char → List Char
  | 0, l => l
  | _ + 1, [] => []
  | fuel + 1, c :: rest =>
      if pat.isPrefixOf (c :: rest) then
        removeAllF pat fuel ((c :: rest).drop pat.length)
      else
        c :: removeAllF pat fuel rest

def removeAll (pat s : String) : String :=
  String.mk (removeAllF pat.data s.data.length s.data)

def isOk {ε α : Type} : Except ε α → Bool
  | .ok _ => true
  | .error _ => false

/-- The capability set of a langchain output parser as used by the pipeline:
`parse` (returning a typed value or a parse error) and the format
instructions it reports for itself. -/
structure OutputParser (α : Type) where
  parse : String → Except String α
  format_instructions : String

/-- `StrOutputParser`: the identity-string parser; `parse` returns its input
and never fails. -/
def StrOutputParser : OutputParser String :=
  ⟨fun output => .ok output, "Please output a string"⟩

/-- `ListOfIntOutputParser._get_description_text`.  Note the Python truthiness
tests: a configured count of `0` is falsy and therefore not printed. -/
def ListOfIntOutputParser_description
    (number_of_int : Option Int) (range_of_int : Option (Int × Int)) : String :=
  "a list of"
    ++ (match number_of_int with
        | some k => if k ≠ 0 then " " ++ toString k else ""
        | none => "")
    ++ " intergers"
    ++ (match range_of_int with
        | some r => " within the range of" ++ toString r
        | none => "")
    ++ " separated by space"

/-- The count check `self.number_of_int and len(result) != self.number_of_int`
(Python truthiness: a configured count of `0` is falsy, so the check is
skipped). -/
def countFail (number_of_int : Option Int) (len : Nat) : Bool :=
  match number_of_int with
  | some k => (k != 0) && ((len : Int) != k)
  | none => false

/-- The range check: some parsed value is strictly below the lower or
strictly above the upper bound of the configured inclusive range. -/
def rangeFail (range_of_int : Option (Int × Int)) (result : List Int) : Bool :=
  match range_of_int with
  | some (lo, hi) => result.any (fun x => x < lo || x > hi)
  | none => false

/-- `[int(x) for x in output.split(" ") if x]`: split on the space
character, drop falsy (empty) tokens, parse each with `int`; `none` when
some token fails to parse. -/
def parsedTokens (output : String) : Option (List Int) :=
  ((splitOnSpace output).filter (fun x => x ≠ "")).mapM pyInt

/-- `ListOfIntOutputParser.parse`: split the output on the space character,
drop empty tokens, parse every token with `int`, then check the configured
exact count (skipped when the configured count is `None` or the falsy `0`)
and the configured inclusive range.  Any failure is wrapped into an
`OutputParserException`, modelled as `.error` (message text abbreviated). -/
def ListOfIntOutputParser_parse
    (number_of_int : Option Int) (range_of_int : Option (Int × Int))
    (output : String) : Except String (List Int) :=
  match parsedTokens output with
  | none =>
      .error ("the output format is not correct. Expect "
        ++ ListOfIntOutputParser_description number_of_int range_of_int
        ++ ", got " ++ output)
  | some result =>
      if countFail number_of_int result.length then
        .error ("Expect " ++ (match number_of_int with | some k => toString k | none => "") ++ " integers, got " ++ toString result.length)
      else if rangeFail range_of_int result then
        .error ("Expect integers within the range of "
          ++ (match range_of_int with | some p => toString p | none => "")
          ++ ", got " ++ toString result)
      else .ok result

def ListOfIntOutputParser
    (number_of_int : Option Int) (range_of_int : Option (Int × Int)) :
    OutputParser (List Int) :=
  ⟨ListOfIntOutputParser_parse number_of_int range_of_int,
   "Please output " ++ ListOfIntOutputParser_description number_of_int range_of_int⟩

/-- The `Script` pydantic model (field schema of the script parser). -/
structure Script where
  scenario : String
  p1_background : String
  p2_background : String
  p1_goal : String
  p2_goal : String
  conversation : List (Int × String)
  p1_rate : Int
  p2_rate : Int
deriving DecidableEq, Repr

/-- Fueled implementation of `re.sub(r",\s*(\)|\])", r"\1", text)`: scanning
left to right, a comma followed by a (possibly empty) whitespace run and a
closing parenthesis or bracket is replaced by that closing delimiter; on a
failed match the scan resumes at the next character.  The fuel is an upper
bound on the remaining input length, so `strip_trailing_commas` below never
exhausts it. -/
def stripCommasF : Nat → List Char → List Char
  | 0, l => l
  | _ + 1, [] => []
  | fuel + 1, ',' :: rest =>
      match rest.dropWhile isPyWs with
      | ')' :: tail => ')' :: stripCommasF fuel tail
      | ']' :: tail => ']' :: stripCommasF fuel tail
      | _ => ',' :: stripCommasF fuel rest
  | fuel + 1, c :: rest => c :: stripCommasF fuel rest

/-- The trailing-comma pre-processing step of `ScriptPydanticOutputParser.parse`. -/
def strip_trailing_commas (text : String) : String :=
  String.mk (stripCommasF text.data.length text.data)

/-- `ScriptPydanticOutputParser.parse`: strip trailing commas before closing
delimiters, then run the superclass schema validation.  The validation
(`langchain.PydanticOutputParser.parse` plus pydantic) is outside this
repository and is modelled as an abstract `validate` oracle. -/
def ScriptPydanticOutputParser_parse
    (validate : String → Except String Script) (text : String) :
    Except String Script :=
  validate (strip_trailing_commas text)

/-- The `LLM_Name` literal type: the enumerated model identifiers accepted by
the pipeline's signatures. -/
def LLM_Name : List String :=
  ["gpt-3.5-turbo", "text-davinci-003", "gpt-4", "human"]

/-- The identifiers for which `obtain_chain` builds a provider chain (the
cases enumerated in its `match`); every other identifier hits the fatal
`ValueError` default case. -/
def supportedModels : List String :=
  ["gpt-3.5-turbo", "gpt-4", "text-davinci-003"]

/-- A constructed langchain `LLMChain`: `chat` is true for the
`ChatOpenAI`-backed chains (`gpt-3.5-turbo`, `gpt-4`) and false for the
completion-model chain (`text-davinci-003`). -/
structure LLMChain where
  chat : Bool
  model_name : String
  template : String
  input_variables : List String
deriving DecidableEq, Repr

inductive GenError where
  /-- The `assert` in `generate`/`agenerate` failed; carries the sorted input
  keys and the sorted template variables named in the assertion message. -/
  | contractViolation (got : List String) (expected : List String)
  /-- `obtain_chain` raised `ValueError("Invalid model name: ...")`. -/
  | unsupportedProvider (model : String)
  /-- Both parse attempts failed; carries the second parse error. -/
  | parseError (msg : String)
deriving DecidableEq, Repr

/-- `obtain_chain(model_name, template, input_variables)`: match on the model
name, building a chat chain for `"gpt-3.5-turbo" | "gpt-4"`, a completion
chain for `"text-davinci-003"`, and raising `ValueError` otherwise.
Constructing a chain performs no network call. -/
def obtain_chain (model_name template : String) (input_variables : List String) :
    Except GenError LLMChain :=
  if model_name = "gpt-3.5-turbo" ∨ model_name = "gpt-4" then
    .ok ⟨true, model_name, template, input_variables⟩
  else if model_name = "text-davinci-003" then
    .ok ⟨false, model_name, template, input_variables⟩
  else
    .error (.unsupportedProvider model_name)

/-- The default `model_name` of `format_bad_output`; both `generate` and
`agenerate` invoke `format_bad_output` without a model argument, so the
recovery round-trip is always issued to this model. -/
def format_bad_output_default_model : String := "gpt-3.5-turbo"

/-- The outcome of one `generate`/`agenerate` call:
the returned value or propagated error, the trace of provider invocations
(the model name each was issued to, in order), and the final state of the
caller's `input_values` dict (which `generate` mutates in place when it
injects format instructions). -/
structure GenResult (α : Type) where
  result : Except GenError α
  calls : List String
  finalInputValues : List (String × String)

/-- The `assert` condition of `generate`/`agenerate`: the set of template
variables equals the input keys together with `"format_instructions"`, or
exactly the input keys. -/
def templateOk (input_variables : List String) (keys : List String) : Bool :=
  decide (input_variables.toFinset = (keys ++ ["format_instructions"]).toFinset
    ∨ input_variables.toFinset = keys.toFinset)

/-- The part of `generate` from the first `chain.predict` on: parse the first
provider output; on failure run `format_bad_output` (one further provider
call, issued to its default model) and parse its output; a second failure
propagates.  `input_values'` is the (possibly already mutated) input dict. -/
def generate_core {α : Type} (model_name : String)
    (input_values' : List (String × String)) (outputParser : OutputParser α)
    (provider : Nat → String) : GenResult α :=
  match outputParser.parse (provider 0) with
  | .ok parsed => ⟨.ok parsed, [model_name], input_values'⟩
  | .error _ =>
      match outputParser.parse (provider 1) with
      | .ok parsed =>
          ⟨.ok parsed, [model_name, format_bad_output_default_model], input_values'⟩
      | .error e2 =>
          ⟨.error (.parseError e2), [model_name, format_bad_output_default_model], input_values'⟩

/-- `generate(model_name, template, input_values, output_parser)`:
assert the template contract, obtain the provider chain, inject
`format_instructions` into `input_values` when absent (an in-place mutation
of the caller's dict), invoke the provider, parse, and on parse failure do
exactly one recovery round-trip.  The cosmetic `format_docstring`
normalization and the prompt rendering are not observable here because the
provider is an oracle indexed by call order. -/
def generate {α : Type} (model_name template : String)
    (input_values : List (String × String)) (outputParser : OutputParser α)
    (provider : Nat → String) : GenResult α :=
  let input_variables := scanPh template.data
  if templateOk input_variables (input_values.map Prod.fst) then
    match obtain_chain model_name template input_variables with
    | .error e => ⟨.error e, [], input_values⟩
    | .ok _chain =>
        let input_values' :=
          if (input_values.lookup "format_instructions").isSome then input_values
          else input_values ++ [("format_instructions", outputParser.format_instructions)]
        generate_core model_name input_values' outputParser provider
  else
    ⟨.error (.contractViolation (sortStrings (input_values.map Prod.fst))
        (sortStrings input_variables)), [], input_values⟩

/-- `agenerate`: the suspending variant; its body in the source is a line-for-
line duplicate of `generate` (with `await chain.apredict` in place of
`chain.predict`), so it is embedded as the same function. -/
def agenerate {α : Type} (model_name template : String)
    (input_values : List (String × String)) (outputParser : OutputParser α)
    (provider : Nat → String) : GenResult α :=
  generate model_name template input_values outputParser provider

/-- The outbound action value published by the agent, with the wire fields
`agent_name`, `action_type`, `argument`, `path`. -/
structure AgentAction where
  agent_name : String
  action_type : String
  argument : String
  path : String
deriving DecidableEq, Repr

/-- The closed set of action kinds (the `ActionType` enum; its declaration
lives in `sotopia.experimental.agents`, outside `src/`, and is modelled from
the spec's action-kind list). -/
inductive ActionType where
  | speak
  | thought
  | none
  | browse
  | browse_action
  | read
  | write
  | run
  | leave
deriving DecidableEq, Repr

/-- `[action for action in ActionType]` as passed by `aact`.  The enum
iteration order is fixed by the (out-of-src) enum declaration; the order is
immaterial to everything proved here because the description strings contain
no template placeholders. -/
def allActionTypes : List ActionType :=
  [.speak, .thought, .none, .browse, .browse_action, .read, .write, .run, .leave]

/-- The per-action description strings of `get_action_template`, abbreviated
to their lead sentence.  The full source text contains no template
placeholders, which is the only property of it the surrounding code depends
on. -/
def action_descriptions : ActionType → String
  | .speak => "`speak` - you can talk to the other agents to share information or ask them something."
  | .thought => "`thought` - only use this rarely to make a plan, set a goal, record your thoughts."
  | .none => "`none` - you can choose not to take an action if you are waiting for some data"
  | .browse => "`browse` - opens a web page."
  | .browse_action => "`browse_action` - actions you can take on a web browser"
  | .read => "`read` - reads the content of a file."
  | .write => "`write` - writes the content to a file."
  | .run => "`run` - runs a command on the command line in a Linux shell."
  | .leave => "`leave` - stop working."

/-- The fixed head of the decision template; its placeholders are
`agent_name`, `message_history` and `goal`. -/
def base_template : String :=
  "Imagine that you are a work colleague of the other persons.\n        Here is the conversation between you and them.\n\n\n        You are {agent_name} in the conversation.\n\n\n        {message_history}\nand you plan to {goal}.\n        ## Action\n        What is your next thought or action? Your response must be in JSON format.\n\n        It must be an object, and it must contain two fields:\n        * `action`, which is one of the actions below\n        * `args`, which is a map of key-value pairs, specifying the arguments for that action\n        "

/-- `LLMAgent.get_action_template`: the base template, the numbered
description of every selected action, and a closing instruction. -/
def get_action_template (selected_actions : List ActionType) : String :=
  base_template
    ++ String.intercalate "\n\n"
        (selected_actions.enum.map fun p =>
          "[" ++ toString (p.1 + 1) ++ "] " ++ action_descriptions p.2)
    ++ "\n        You can use the `speak` action to engage with the other agents. Again, you must reply with JSON, and only with JSON."

/-- `LLMAgent._format_message_history`: one `speaker action message` line per
history entry. -/
def _format_message_history (message_history : List (String × String × String)) : String :=
  String.intercalate "\n"
    (message_history.map fun e => e.1 ++ " " ++ e.2.1 ++ " " ++ e.2.2)

/-- Python `str.strip(c)` for a single character: remove every leading and
trailing occurrence of `c`. -/
def stripChar (c : Char) (s : String) : String :=
  String.mk (((s.data.dropWhile (· == c)).reverse.dropWhile (· == c)).reverse)

/-- Python `str.strip()`: remove leading and trailing whitespace. -/
def pyStrip (s : String) : String := String.mk (pyStripWs s.data)

/-- The sanitization `aact` applies to the raw decision text: delete code
fences and the token `json`, strip surrounding double quotes, then strip
whitespace. -/
def sanitize_agent_action (raw : String) : String :=
  pyStrip (stripChar '"' (removeAll "json" (removeAll "```" raw)))

/-- A decoded decision object: the result of `json.loads` on the sanitized
text when it yields an object with a string `action` field and a
string-valued `args` mapping (the shape the dispatch code consumes). -/
structure Decision where
  action : String
  args : List (String × String)
deriving DecidableEq, Repr

/-- `data[args][key]`: dict indexing; a missing key raises `KeyError`,
which the surrounding `except json.JSONDecodeError` does not catch. -/
def getArg (d : Decision) (key : String) : Except String String :=
  match d.args.lookup key with
  | some v => .ok v
  | Option.none => .error ("KeyError: " ++ key)

/-- The dispatch on the decoded decision's `action` value inside
`LLMAgent.aact`, in source order.  Returns the produced action (`none`
models the Python code falling through and returning `None`) and the history
entry it appends, or the message of an uncaught `KeyError`. -/
def handleDecision (name : String) (d : Decision) :
    Except String (Option AgentAction × Option (String × String × String)) :=
  if d.action = "thought" then
    match getArg d "content" with
    | .error e => .error e
    | .ok content =>
        .ok (some ⟨name, "thought", content, ""⟩, some (name, d.action, content))
  else if d.action = "speak" then
    match getArg d "content" with
    | .error e => .error e
    | .ok content =>
        .ok (some ⟨name, "speak", content, ""⟩, some (name, d.action, content))
  else if d.action = "browse" then
    match getArg d "url" with
    | .error e => .error e
    | .ok url => .ok (some ⟨name, d.action, url, ""⟩, some (name, d.action, url))
  else if d.action = "browse_action" then
    match getArg d "command" with
    | .error e => .error e
    | .ok command =>
        .ok (some ⟨name, d.action, command, ""⟩, some (name, d.action, command))
  else if d.action = "run" then
    match getArg d "command" with
    | .error e => .error e
    | .ok command =>
        .ok (some ⟨name, d.action, command, ""⟩, some (name, d.action, command))
  else if d.action = "write" then
    match getArg d "path" with
    | .error e => .error e
    | .ok path =>
        match getArg d "content" with
        | .error e => .error e
        | .ok content =>
            .ok (some ⟨name, d.action, content, path⟩, some (name, d.action, content))
  else if d.action = "read" then
    match getArg d "path" with
    | .error e => .error e
    | .ok path => .ok (some ⟨name, d.action, "Nan", path⟩, some (name, d.action, path))
  else if d.action = "none" then
    .ok (some ⟨name, "none", "", ""⟩, Option.none)
  else
    .ok (Option.none, Option.none)

/-- The agent-private state of one `LLMAgent` instance. -/
structure AgentState where
  output_channel : String
  query_interval : Nat
  count_ticks : Nat
  message_history : List (String × String × String)
  name : String
  model_name : String
  goal : String
deriving DecidableEq, Repr

/-- The three inbound event kinds `LLMAgent.aact` matches on. -/
inductive InboundMessage where
  | text (text : String)
  | tick
  | action (agent_name : String) (action_type : String) (argument : String)
deriving DecidableEq, Repr

/-- The outcome of one `aact` invocation: a normal return (`ret none` models
the Python function falling off its end and returning `None`), an exception
propagated out of `agenerate`, or an uncaught `KeyError` from a missing
decision argument. -/
inductive AactResult where
  | ret (a : Option AgentAction)
  | genExn (e : GenError)
  | keyExn (msg : String)
deriving DecidableEq, Repr

def noneAction (name : String) : AgentAction := ⟨name, "none", "", ""⟩

/-- The body of the on-cadence decision cycle after the pipeline call `gen`:
propagate a pipeline exception, drop the cycle on a JSON decode failure,
propagate a `KeyError` from the dispatch, or return the classified action
and append its history entry. -/
def decisionDispatch (s' : AgentState) (gen : GenResult String)
    (decode : String → Option Decision) : AactResult × AgentState × Nat :=
  match gen.result with
  | .error e => (.genExn e, s', gen.calls.length)
  | .ok raw =>
      match decode (sanitize_agent_action raw) with
      | Option.none => (.ret Option.none, s', gen.calls.length)
      | some d =>
          match handleDecision s'.name d with
          | .error msg => (.keyExn msg, s', gen.calls.length)
          | .ok (act, entry) =>
              (.ret act,
                { s' with message_history := s'.message_history ++ entry.toList },
                gen.calls.length)

/-- `LLMAgent.aact`: the event-driven decision loop.  Returns the outcome,
the updated agent state, and the number of provider invocations made while
handling the event.  `provider` is the model-provider oracle; `decode` is
the `json.loads` oracle (`none` models a `JSONDecodeError`). -/
def aact (s : AgentState) (m : InboundMessage) (provider : Nat → String)
    (decode : String → Option Decision) : AactResult × AgentState × Nat :=
  match m with
  | .text t =>
      (.ret (some (noneAction s.name)),
        { s with message_history := s.message_history ++ [(s.name, "observation data", t)] }, 0)
  | .tick =>
      let s' := { s with count_ticks := s.count_ticks + 1 }
      if s'.count_ticks % s.query_interval = 0 then
        decisionDispatch s'
          (agenerate s.model_name (get_action_template allActionTypes)
            [("message_history", _format_message_history s.message_history),
             ("goal", s.goal), ("agent_name", s.name)] StrOutputParser provider)
          decode
      else
        (.ret (some (noneAction s.name)), s', 0)
  | .action agent_name action_type argument =>
      if action_type = "speak" then
        (.ret (some (noneAction s.name)),
          { s with message_history := s.message_history ++ [(agent_name, action_type, argument)] }, 0)
      else
        (.ret (some (noneAction s.name)), s, 0)

/-- `LLMAgent.send`: the channel an action is published on — the agent's
output channel for `speak`, the fixed runtime channel for the
browsing/file/shell kinds, and nothing otherwise. -/
def send_channel (output_channel : String) (message : AgentAction) : Option String :=
  if message.action_type = "speak" then some output_channel
  else if message.action_type ∈ ["browse", "browse_action", "write", "read", "run"] then
    some "Agent:Runtime"
  else
    Option.none

/-- A parser that rejects every input, used to witness the recovery bound. -/
def failParser : OutputParser (List Int) := ⟨fun _ => .error "nope", "fi"⟩

/-- A provider oracle returning a fixed completion, used by witnesses. -/
def constProvider : Nat → String := fun _ => "output"

/- ### Helper lemmas -/

lemma mem_supportedModels_iff (m : String) :
    m ∈ supportedModels ↔
      m = "gpt-3.5-turbo" ∨ m = "gpt-4" ∨ m = "text-davinci-003" := by
  simp [supportedModels]

lemma generate_eq_core {α : Type} (model template : String)
    (values : List (String × String)) (parser : OutputParser α)
    (provider : Nat → String)
    (hok : templateOk (scanPh template.data) (values.map Prod.fst) = true)
    (hm : model ∈ supportedModels) :
    generate model template values parser provider =
      generate_core model
        (if (values.lookup "format_instructions").isSome then values
         else values ++ [("format_instructions", parser.format_instructions)])
        parser provider := by
  rcases (mem_supportedModels_iff model).mp hm with h | h | h <;> subst h <;>
    simp [generate, hok, obtain_chain]

lemma generate_core_finalInputValues {α : Type} (model : String)
    (vals : List (String × String)) (parser : OutputParser α)
    (provider : Nat → String) :
    (generate_core model vals parser provider).finalInputValues = vals := by
  unfold generate_core
  rcases parser.parse (provider 0) with _ | _
  · rcases parser.parse (provider 1) with _ | _ <;> rfl
  · rfl

/-- C1: For every output parser that rejects both the original model output
and the reformatted output, `generate` (and `agenerate`) invokes the model
provider exactly twice — the original call plus one recovery reformat
round-trip — and then propagates a fatal parse error to the caller; a third
provider call is never made. -/
theorem generate_recovery_bound {α : Type} (model template : String)
    (values : List (String × String)) (parser : OutputParser α)
    (provider : Nat → String) (e1 e2 : String)
    (hok : templateOk (scanPh template.data) (values.map Prod.fst) = true)
    (hm : model ∈ supportedModels)
    (h1 : parser.parse (provider 0) = .error e1)
    (h2 : parser.parse (provider 1) = .error e2) :
    (generate model template values parser provider).calls.length = 2 ∧
    (generate model template values parser provider).result = .error (.parseError e2) ∧
    (agenerate model template values parser provider).calls.length = 2 ∧
    (agenerate model template values parser provider).result = .error (.parseError e2) := by
  rw [agenerate, generate_eq_core model template values parser provider hok hm]
  simp [generate_core, h1, h2]

theorem generate_recovery_bound_witness :
    (generate "gpt-4" "{x}" [("x", "v")] failParser constProvider).calls.length = 2 ∧
    (generate "gpt-4" "{x}" [("x", "v")] failParser constProvider).result =
      .error (.parseError "nope") ∧
    (agenerate "gpt-4" "{x}" [("x", "v")] failParser constProvider).calls.length = 2 ∧
    (agenerate "gpt-4" "{x}" [("x", "v")] failParser constProvider).result =
      .error (.parseError "nope") :=
  generate_recovery_bound "gpt-4" "{x}" [("x", "v")] failParser constProvider
    "nope" "nope" (by decide) (by decide) rfl rfl

/-- C10: The recovery round-trip is always issued to the fixed default
provider `"gpt-3.5-turbo"`, regardless of which model identifier the
original `generate` or `agenerate` call used: `format_bad_output` is invoked
without a model name, so the recovery call never reuses the caller's
provider. -/
theorem recovery_uses_default_model {α : Type} (model template : String)
    (values : List (String × String)) (parser : OutputParser α)
    (provider : Nat → String) (e1 : String)
    (hok : templateOk (scanPh template.data) (values.map Prod.fst) = true)
    (hm : model ∈ supportedModels)
    (h1 : parser.parse (provider 0) = .error e1) :
    format_bad_output_default_model = "gpt-3.5-turbo" ∧
    (generate model template values parser provider).calls = [model, "gpt-3.5-turbo"] ∧
    (agenerate model template values parser provider).calls = [model, "gpt-3.5-turbo"] := by
  rw [agenerate, generate_eq_core model template values parser provider hok hm]
  rcases h : parser.parse (provider 1) with _ | _ <;>
    simp [generate_core, format_bad_output_default_model, h1, h]

theorem recovery_uses_default_model_witness :
    format_bad_output_default_model = "gpt-3.5-turbo" ∧
    (generate "gpt-4" "{x}" [("x", "v")] failParser constProvider).calls =
      ["gpt-4", "gpt-3.5-turbo"] ∧
    (agenerate "gpt-4" "{x}" [("x", "v")] failParser constProvider).calls =
      ["gpt-4", "gpt-3.5-turbo"] :=
  recovery_uses_default_model "gpt-4" "{x}" [("x", "v")] failParser constProvider
    "nope" (by decide) (by decide) rfl

/-- C2: For every template T and input map M, the pipeline's
template-contract check succeeds iff the set of placeholder names extracted
from T equals keys(M) or keys(M) plus the reserved name
`"format_instructions"`; on mismatch the pipeline fails before any model
call (an empty provider-call trace), naming the mismatched sorted key and
placeholder sets. -/
theorem template_contract_validate_iff {α : Type} (template : String)
    (input_values : List (String × String)) (model : String)
    (parser : OutputParser α) (provider : Nat → String) :
    (templateOk (scanPh template.data) (input_values.map Prod.fst) = true ↔
      (scanPh template.data).toFinset = (input_values.map Prod.fst).toFinset ∨
      (scanPh template.data).toFinset =
        (input_values.map Prod.fst).toFinset ∪ {"format_instructions"}) ∧
    (templateOk (scanPh template.data) (input_values.map Prod.fst) = false →
      (generate model template input_values parser provider).calls = [] ∧
      (generate model template input_values parser provider).result =
        .error (.contractViolation (sortStrings (input_values.map Prod.fst))
          (sortStrings (scanPh template.data))) ∧
      (agenerate model template input_values parser provider).calls = []) := by
  constructor
  · rw [templateOk, decide_eq_true_iff]
    simp [List.toFinset_append, or_comm]
  · intro hbad
    rw [agenerate]
    simp [generate, hbad]

theorem template_contract_validate_iff_witness :
    (templateOk (scanPh "{x}".data) ([("y", "v")].map Prod.fst) = true ↔
      (scanPh "{x}".data).toFinset = ([("y", "v")].map Prod.fst).toFinset ∨
      (scanPh "{x}".data).toFinset =
        ([("y", "v")].map Prod.fst).toFinset ∪ {"format_instructions"}) ∧
    (generate "gpt-4" "{x}" [("y", "v")] failParser constProvider).calls = [] ∧
    (generate "gpt-4" "{x}" [("y", "v")] failParser constProvider).result =
      .error (.contractViolation (sortStrings (["y"])) (sortStrings (["x"]))) ∧
    (agenerate "gpt-4" "{x}" [("y", "v")] failParser constProvider).calls = [] := by
  have h := template_contract_validate_iff (α := List Int) "{x}" [("y", "v")]
    "gpt-4" failParser constProvider
  exact ⟨h.1, h.2 (by decide)⟩

/-- C4: Provider-chain selection succeeds for exactly the enumerated closed
set of supported model identifiers; for every identifier outside that set
(including `"human"`, which the `LLM_Name` type declares but `obtain_chain`
does not support) it fails with a fatal unsupported-provider error, and the
pipeline then fails before any network call (empty provider-call trace),
never silently downgraded to another provider. -/
theorem provider_selection_closed {α : Type} (model t : String)
    (v : List String) (values : List (String × String))
    (parser : OutputParser α) (provider : Nat → String) :
    ((∃ chain, obtain_chain model t v = .ok chain) ↔ model ∈ supportedModels) ∧
    ("human" ∈ LLM_Name ∧
      obtain_chain "human" t v = .error (.unsupportedProvider "human")) ∧
    (model ∉ supportedModels →
      obtain_chain model t v = .error (.unsupportedProvider model) ∧
      (templateOk (scanPh t.data) (values.map Prod.fst) = true →
        (generate model t values parser provider).result =
          .error (.unsupportedProvider model) ∧
        (generate model t values parser provider).calls = [] ∧
        (agenerate model t values parser provider).result =
          .error (.unsupportedProvider model) ∧
        (agenerate model t values parser provider).calls = [])) := by
  refine ⟨?_, ⟨by simp [LLM_Name], rfl⟩, ?_⟩
  · constructor
    · rintro ⟨chain, hc⟩
      unfold obtain_chain at hc
      split_ifs at hc with h1 h2
      · rcases h1 with h | h <;> simp [supportedModels, h]
      · simp [supportedModels, h2]
    · intro hm
      rcases (mem_supportedModels_iff model).mp hm with h | h | h <;> subst h <;>
        exact ⟨_, rfl⟩
  · intro hm
    have h3 : ¬(model = "gpt-3.5-turbo" ∨ model = "gpt-4") ∧
        model ≠ "text-davinci-003" := by
      rw [mem_supportedModels_iff] at hm
      tauto
    have hch : obtain_chain model t v = .error (.unsupportedProvider model) := by
      unfold obtain_chain
      rw [if_neg h3.1, if_neg h3.2]
    refine ⟨hch, fun hok => ?_⟩
    have hch2 : obtain_chain model t (scanPh t.data) =
        .error (.unsupportedProvider model) := by
      unfold obtain_chain
      rw [if_neg h3.1, if_neg h3.2]
    rw [agenerate]
    simp [generate, hok, hch2]

theorem provider_selection_closed_witness :
    ((∃ chain, obtain_chain "llama-2" "{x}" ["x"] = .ok chain) ↔
      "llama-2" ∈ supportedModels) ∧
    ("human" ∈ LLM_Name ∧
      obtain_chain "human" "{x}" ["x"] = .error (.unsupportedProvider "human")) ∧
    (obtain_chain "llama-2" "{x}" ["x"] = .error (.unsupportedProvider "llama-2") ∧
      (generate "llama-2" "{x}" [("x", "v")] failParser constProvider).result =
        .error (.unsupportedProvider "llama-2") ∧
      (generate "llama-2" "{x}" [("x", "v")] failParser constProvider).calls = [] ∧
      (agenerate "llama-2" "{x}" [("x", "v")] failParser constProvider).result =
        .error (.unsupportedProvider "llama-2") ∧
      (agenerate "llama-2" "{x}" [("x", "v")] failParser constProvider).calls = []) := by
  have h := provider_selection_closed (α := List Int) "llama-2" "{x}" ["x"]
    [("x", "v")] failParser constProvider
  refine ⟨h.1, h.2.1, ?_⟩
  have h2 := h.2.2 (by decide)
  exact ⟨h2.1, h2.2 (by decide)⟩

set_option maxRecDepth 100000 in
lemma actionTemplate_contract_ok :
    templateOk (scanPh (get_action_template allActionTypes).data)
      ["message_history", "goal", "agent_name"] = true := by decide

lemma actionTemplate_contract_ok2 (a b c : String) :
    templateOk (scanPh (get_action_template allActionTypes).data)
      (([("message_history", a), ("goal", b), ("agent_name", c)] :
        List (String × String)).map Prod.fst) = true := by
  simpa using actionTemplate_contract_ok

/-- On a cadence tick, the pipeline call made by `aact` (identity-string
parser, supported model) returns the provider's first completion after one
provider invocation, with the format instructions injected into the input
dict. -/
lemma aact_generation (s : AgentState) (provider : Nat → String)
    (hm : s.model_name ∈ supportedModels) :
    agenerate s.model_name (get_action_template allActionTypes)
      [("message_history", _format_message_history s.message_history),
       ("goal", s.goal), ("agent_name", s.name)] StrOutputParser provider =
      ⟨.ok (provider 0), [s.model_name],
        [("message_history", _format_message_history s.message_history),
         ("goal", s.goal), ("agent_name", s.name),
         ("format_instructions", "Please output a string")]⟩ := by
  rw [agenerate, generate_eq_core s.model_name (get_action_template allActionTypes)
      [("message_history", _format_message_history s.message_history),
       ("goal", s.goal), ("agent_name", s.name)] StrOutputParser provider
      (actionTemplate_contract_ok2 _ _ _) hm]
  have hlk : (List.lookup "format_instructions"
      [("message_history", _format_message_history s.message_history),
       ("goal", s.goal), ("agent_name", s.name)]) = Option.none := rfl
  simp [generate_core, StrOutputParser, hlk]

set_option linter.unusedVariables false in
/-- C3: For every positive `queryInterval`, each Tick event increments the
agent's tick counter by one, and a decision cycle (one pipeline/provider
invocation) is triggered exactly when the incremented counter is a multiple
of `queryInterval`; every off-cadence tick instead emits a `none` action,
makes no provider call, and leaves the rest of the state unchanged. -/
theorem tick_cadence (s : AgentState) (provider : Nat → String)
    (decode : String → Option Decision)
    (hq : 0 < s.query_interval) (hm : s.model_name ∈ supportedModels) :
    (aact s .tick provider decode).2.1.count_ticks = s.count_ticks + 1 ∧
    ((aact s .tick provider decode).2.2 = 1 ↔
      (s.count_ticks + 1) % s.query_interval = 0) ∧
    ((s.count_ticks + 1) % s.query_interval ≠ 0 →
      aact s .tick provider decode =
        (.ret (some (noneAction s.name)),
         { s with count_ticks := s.count_ticks + 1 }, 0)) := by
  by_cases h : (s.count_ticks + 1) % s.query_interval = 0
  · have key : aact s .tick provider decode =
        decisionDispatch { s with count_ticks := s.count_ticks + 1 }
          ⟨.ok (provider 0), [s.model_name],
            [("message_history", _format_message_history s.message_history),
             ("goal", s.goal), ("agent_name", s.name),
             ("format_instructions", "Please output a string")]⟩ decode := by
      simp [aact, h, aact_generation s provider hm]
    rw [key]
    refine ⟨?_, ?_, fun hn => absurd h hn⟩ <;>
    · unfold decisionDispatch
      cases hd : decode (sanitize_agent_action (provider 0)) with
      | none => simp [hd, h]
      | some d =>
          cases hh : handleDecision s.name d with
          | error msg => simp [hd, h, hh]
          | ok pr =>
              cases pr
              simp [hd, h, hh]
  · have key : aact s .tick provider decode =
        (.ret (some (noneAction s.name)),
         { s with count_ticks := s.count_ticks + 1 }, 0) := by
      simp [aact, h]
    rw [key]
    simp [h]

theorem tick_cadence_witness :
    (aact ⟨"chan", 3, 0, [], "Ava", "gpt-4", "negotiate price"⟩ .tick constProvider
      (fun _ => Option.none)).2.1.count_ticks = 0 + 1 ∧
    ((aact ⟨"chan", 3, 0, [], "Ava", "gpt-4", "negotiate price"⟩ .tick constProvider
      (fun _ => Option.none)).2.2 = 1 ↔ (0 + 1) % 3 = 0) ∧
    ((0 + 1) % 3 ≠ 0 →
      aact ⟨"chan", 3, 0, [], "Ava", "gpt-4", "negotiate price"⟩ .tick constProvider
        (fun _ => Option.none) =
        (.ret (some (noneAction "Ava")),
         ⟨"chan", 3, 1, [], "Ava", "gpt-4", "negotiate price"⟩, 0)) :=
  tick_cadence ⟨"chan", 3, 0, [], "Ava", "gpt-4", "negotiate price"⟩ constProvider
    (fun _ => Option.none) (by decide) (by decide)

/-- C7: For every decision object with action `"write"` whose args contain
`"path"` and `"content"`, the action classifier produces an `AgentAction`
with action type `"write"`, argument equal to the content value and path
equal to the path value (routed to the runtime-execution channel); for every
decision object with action `"read"` whose args contain `"path"`, it
produces an `AgentAction` with argument the sentinel `"Nan"` and path equal
to the path value (also routed to the runtime-execution channel). -/
theorem classifier_write_read (name outChan : String)
    (args : List (String × String)) :
    (∀ p c, args.lookup "path" = some p → args.lookup "content" = some c →
      handleDecision name ⟨"write", args⟩ =
        .ok (some ⟨name, "write", c, p⟩, some (name, "write", c)) ∧
      send_channel outChan ⟨name, "write", c, p⟩ = some "Agent:Runtime") ∧
    (∀ p, args.lookup "path" = some p →
      handleDecision name ⟨"read", args⟩ =
        .ok (some ⟨name, "read", "Nan", p⟩, some (name, "read", p)) ∧
      send_channel outChan ⟨name, "read", "Nan", p⟩ = some "Agent:Runtime") := by
  constructor
  · intro p c hp hc
    exact ⟨by simp [handleDecision, getArg, hp, hc], by simp [send_channel]⟩
  · intro p hp
    exact ⟨by simp [handleDecision, getArg, hp], by simp [send_channel]⟩

theorem classifier_write_read_witness :
    (handleDecision "Ava" ⟨"write", [("path", "/tmp/a.txt"), ("content", "hello")]⟩ =
      .ok (some ⟨"Ava", "write", "hello", "/tmp/a.txt"⟩, some ("Ava", "write", "hello")) ∧
      send_channel "chan" ⟨"Ava", "write", "hello", "/tmp/a.txt"⟩ = some "Agent:Runtime") ∧
    (handleDecision "Ava" ⟨"read", [("path", "/tmp/a.txt"), ("content", "hello")]⟩ =
      .ok (some ⟨"Ava", "read", "Nan", "/tmp/a.txt"⟩, some ("Ava", "read", "/tmp/a.txt")) ∧
      send_channel "chan" ⟨"Ava", "read", "Nan", "/tmp/a.txt"⟩ = some "Agent:Runtime") := by
  have h := classifier_write_read "Ava" "chan" [("path", "/tmp/a.txt"), ("content", "hello")]
  exact ⟨h.1 "/tmp/a.txt" "hello" rfl rfl, h.2 "/tmp/a.txt" rfl⟩

/-- C8: When the sanitized decision text is not valid JSON (the decode
oracle returns `none`, modelling a `JSONDecodeError`), the decision cycle
ends with no action produced — the Python function returns `None` — and
nothing is appended to history; no explicit `none` action is emitted on this
path. -/
theorem decode_failure_no_action (s : AgentState) (provider : Nat → String)
    (decode : String → Option Decision)
    (hm : s.model_name ∈ supportedModels)
    (hcad : (s.count_ticks + 1) % s.query_interval = 0)
    (hd : decode (sanitize_agent_action (provider 0)) = Option.none) :
    aact s .tick provider decode =
      (.ret Option.none, { s with count_ticks := s.count_ticks + 1 }, 1) := by
  have key : aact s .tick provider decode =
      decisionDispatch { s with count_ticks := s.count_ticks + 1 }
        ⟨.ok (provider 0), [s.model_name],
          [("message_history", _format_message_history s.message_history),
           ("goal", s.goal), ("agent_name", s.name),
           ("format_instructions", "Please output a string")]⟩ decode := by
    simp [aact, hcad, aact_generation s provider hm]
  rw [key]
  unfold decisionDispatch
  simp [hd]

theorem decode_failure_no_action_witness :
    aact ⟨"chan", 1, 0, [], "Ava", "gpt-4", "negotiate price"⟩ .tick
      (fun _ => "not json at all") (fun _ => Option.none) =
      (.ret Option.none, ⟨"chan", 1, 1, [], "Ava", "gpt-4", "negotiate price"⟩, 1) :=
  decode_failure_no_action ⟨"chan", 1, 0, [], "Ava", "gpt-4", "negotiate price"⟩
    (fun _ => "not json at all") (fun _ => Option.none) (by decide) (by decide) rfl

/-- C5 counterexample: with no exact count and no range configured, the
claim's failure characterization ("fails exactly when the token count
differs from the configured exact count, or some value is out of the
configured range" under whitespace splitting) predicts that both `"1 2"` and
`"1\t2"` parse to `[1, 2]`; the code splits on the space character only, so
`"1 2"` succeeds but `"1\t2"` fails. -/
theorem listOfInt_claim_counterexample :
    isOk (ListOfIntOutputParser_parse Option.none Option.none "1\t2") = false ∧
    ListOfIntOutputParser_parse Option.none Option.none "1 2" = .ok [1, 2] := by
  constructor
  · decide
  · rfl

lemma countFail_eq_false (n : Option Int) (len : Nat) :
    countFail n len = false ↔ ∀ k, n = some k → k = 0 ∨ (len : Int) = k := by
  cases n with
  | none => simp [countFail]
  | some k => simp [countFail]; tauto

lemma rangeFail_eq_false (r : Option (Int × Int)) (result : List Int) :
    rangeFail r result = false ↔
      ∀ lo hi, r = some (lo, hi) → ∀ v ∈ result, lo ≤ v ∧ v ≤ hi := by
  rcases r with _ | ⟨lo, hi⟩
  · simp [rangeFail]
  · have h1 : rangeFail (some (lo, hi)) result = false ↔
        ∀ v ∈ result, lo ≤ v ∧ v ≤ hi := by
      rw [rangeFail, ← Bool.not_eq_true, List.any_eq_true]
      push_neg
      constructor
      · intro h v hv
        have hb := h v hv
        simp only [ne_eq, Bool.or_eq_true, decide_eq_true_eq, not_or, not_lt] at hb
        exact hb
      · intro h v hv
        have hb := h v hv
        simp only [ne_eq, Bool.or_eq_true, decide_eq_true_eq, not_or, not_lt]
        exact hb
    rw [h1]
    constructor
    · intro h lo' hi' heq
      obtain ⟨rfl, rfl⟩ : lo = lo' ∧ hi = hi' := by simpa using heq
      exact h
    · intro h
      exact h lo hi rfl

/-- C5 amended: the bounded-integer-list parser splits its input on the
space character (discarding empty tokens) and parses each token with `int`;
`parse` returns the token values exactly when every token parses as an
integer, the token count matches the configured exact count (when one is set
and nonzero), and every value lies in the configured inclusive range (when
one is set).  The spec's three examples behave as stated. -/
theorem listOfInt_parse_characterization (number_of_int : Option Int)
    (range_of_int : Option (Int × Int)) (output : String) (vs : List Int) :
    (ListOfIntOutputParser_parse number_of_int range_of_int output = .ok vs ↔
      (parsedTokens output = some vs ∧
       (∀ k, number_of_int = some k → k = 0 ∨ (vs.length : Int) = k) ∧
       (∀ lo hi, range_of_int = some (lo, hi) → ∀ v ∈ vs, lo ≤ v ∧ v ≤ hi))) ∧
    ListOfIntOutputParser_parse (some 3) Option.none "1 2 3" = .ok [1, 2, 3] ∧
    isOk (ListOfIntOutputParser_parse (some 3) Option.none "1 2") = false ∧
    isOk (ListOfIntOutputParser_parse Option.none (some (1, 4)) "5") = false := by
  refine ⟨?_, rfl, by decide, by decide⟩
  cases hm : parsedTokens output with
  | none => simp [ListOfIntOutputParser_parse, hm]
  | some result =>
      simp only [ListOfIntOutputParser_parse, hm]
      by_cases hc : countFail number_of_int result.length = true
      · rw [if_pos hc]
        refine iff_of_false (by simp) ?_
        rintro ⟨hsome, hcnt, _⟩
        obtain rfl : result = vs := by simpa using hsome
        rw [(countFail_eq_false number_of_int result.length).mpr hcnt] at hc
        exact Bool.false_ne_true hc
      · rw [if_neg hc]
        rw [Bool.not_eq_true] at hc
        by_cases hr : rangeFail range_of_int result = true
        · rw [if_pos hr]
          refine iff_of_false (by simp) ?_
          rintro ⟨hsome, _, hrng⟩
          obtain rfl : result = vs := by simpa using hsome
          rw [(rangeFail_eq_false range_of_int result).mpr hrng] at hr
          exact Bool.false_ne_true hr
        · rw [if_neg hr]
          rw [Bool.not_eq_true] at hr
          constructor
          · intro hok
            obtain rfl : result = vs := by simpa using hok
            exact ⟨rfl, (countFail_eq_false _ _).mp hc,
              (rangeFail_eq_false _ _).mp hr⟩
          · rintro ⟨hsome, _, _⟩
            obtain rfl : result = vs := by simpa using hsome
            rfl

theorem listOfInt_parse_characterization_witness :
    (ListOfIntOutputParser_parse (some 3) Option.none "1 2 3" = .ok [1, 2, 3] ↔
      (parsedTokens "1 2 3" = some [1, 2, 3] ∧
       (∀ k, (some 3 : Option Int) = some k → k = 0 ∨ (([1, 2, 3] : List Int).length : Int) = k) ∧
       (∀ lo hi, (Option.none : Option (Int × Int)) = some (lo, hi) →
         ∀ v ∈ ([1, 2, 3] : List Int), lo ≤ v ∧ v ≤ hi))) ∧
    ListOfIntOutputParser_parse (some 3) Option.none "1 2 3" = .ok [1, 2, 3] ∧
    isOk (ListOfIntOutputParser_parse (some 3) Option.none "1 2") = false ∧
    isOk (ListOfIntOutputParser_parse Option.none (some (1, 4)) "5") = false :=
  listOfInt_parse_characterization (some 3) Option.none "1 2 3" [1, 2, 3]

/-- A Script value used to exercise the script-schema parser. -/
def exampleScript : Script := ⟨"", "", "", "", "", [], 0, 0⟩

/-- A concrete stand-in for the external schema validation: accepts exactly
the comma-stripped example text. -/
def exampleValidator (t : String) : Except String Script :=
  if t = "(scenario: ...)" then .ok exampleScript
  else .error "Failed to parse Script"

/-- C6: `ScriptPydanticOutputParser.parse` pre-processes its input by
stripping every trailing comma (with any interleaved whitespace)
immediately before a closing bracket or parenthesis, and only then runs the
schema validation; so for any validator that rejects the trailing-comma text
`"(scenario: ..., )"` but accepts its stripped form, the parser accepts the
text whereas direct validation without stripping fails. -/
theorem script_parser_strips_trailing_commas
    (validate : String → Except String Script) (sc : Script) (e : String)
    (haccept : validate "(scenario: ...)" = .ok sc)
    (hreject : validate "(scenario: ..., )" = .error e) :
    (∀ text, ScriptPydanticOutputParser_parse validate text =
      validate (strip_trailing_commas text)) ∧
    strip_trailing_commas "(scenario: ..., )" = "(scenario: ...)" ∧
    strip_trailing_commas "[1, 2, ]" = "[1, 2]" ∧
    ScriptPydanticOutputParser_parse validate "(scenario: ..., )" = .ok sc ∧
    validate "(scenario: ..., )" = .error e := by
  refine ⟨fun _ => rfl, by decide, by decide, ?_, hreject⟩
  rw [ScriptPydanticOutputParser_parse,
    show strip_trailing_commas "(scenario: ..., )" = "(scenario: ...)" by decide]
  exact haccept

theorem script_parser_strips_trailing_commas_witness :
    (∀ text, ScriptPydanticOutputParser_parse exampleValidator text =
      exampleValidator (strip_trailing_commas text)) ∧
    strip_trailing_commas "(scenario: ..., )" = "(scenario: ...)" ∧
    strip_trailing_commas "[1, 2, ]" = "[1, 2]" ∧
    ScriptPydanticOutputParser_parse exampleValidator "(scenario: ..., )" =
      .ok exampleScript ∧
    exampleValidator "(scenario: ..., )" = .error "Failed to parse Script" :=
  script_parser_strips_trailing_commas exampleValidator exampleScript
    "Failed to parse Script" rfl rfl

/-- C9 counterexample: `generate` does not leave the caller-supplied
input-value map unchanged — when the map lacks a `"format_instructions"`
key, the call mutates the caller's dict by inserting the parser's format
instructions under that key. -/
theorem generate_mutates_callers_map :
    (generate "gpt-4" "{x}" [("x", "v")] StrOutputParser constProvider).finalInputValues
      ≠ [("x", "v")] := by decide

lemma obtain_chain_unsupported (model t : String) (v : List String)
    (hm : model ∉ supportedModels) :
    obtain_chain model t v = .error (.unsupportedProvider model) := by
  have h3 : ¬(model = "gpt-3.5-turbo" ∨ model = "gpt-4") ∧
      model ≠ "text-davinci-003" := by
    rw [mem_supportedModels_iff] at hm
    tauto
  unfold obtain_chain
  rw [if_neg h3.1, if_neg h3.2]

/-- C9 amended: `generate` and `agenerate` (which share one body) leave the
caller's input-value map unchanged when it already has a
`"format_instructions"` entry, when the template contract fails, or when
provider selection fails; but on a call that reaches the provider with the
key absent, they mutate the caller's map by appending the parser's format
instructions under that key. -/
theorem generate_input_values_frame {α : Type} (model template : String)
    (values : List (String × String)) (parser : OutputParser α)
    (provider : Nat → String) :
    agenerate model template values parser provider =
      generate model template values parser provider ∧
    ((values.lookup "format_instructions").isSome = true →
      (generate model template values parser provider).finalInputValues = values) ∧
    (templateOk (scanPh template.data) (values.map Prod.fst) = false →
      (generate model template values parser provider).finalInputValues = values) ∧
    (model ∉ supportedModels →
      (generate model template values parser provider).finalInputValues = values) ∧
    (templateOk (scanPh template.data) (values.map Prod.fst) = true →
      model ∈ supportedModels →
      values.lookup "format_instructions" = Option.none →
      (generate model template values parser provider).finalInputValues =
        values ++ [("format_instructions", parser.format_instructions)]) := by
  refine ⟨rfl, ?_, ?_, ?_, ?_⟩
  · intro hsome
    unfold generate
    by_cases hok : templateOk (scanPh template.data) (values.map Prod.fst) = true
    · rw [if_pos hok]
      cases hc : obtain_chain model template (scanPh template.data) with
      | error e => rfl
      | ok chain => simp [hsome, generate_core_finalInputValues]
    · rw [if_neg hok]
  · intro hbad
    simp [generate, hbad]
  · intro hns
    unfold generate
    by_cases hok : templateOk (scanPh template.data) (values.map Prod.fst) = true
    · rw [if_pos hok, obtain_chain_unsupported model template (scanPh template.data) hns]
    · rw [if_neg hok]
  · intro hok hmem hnone
    rw [generate_eq_core model template values parser provider hok hmem]
    simp [hnone, generate_core_finalInputValues]

theorem generate_input_values_frame_witness :
    (generate "gpt-4" "{x}" [("x", "v")] StrOutputParser constProvider).finalInputValues =
      [("x", "v")] ++ [("format_instructions", StrOutputParser.format_instructions)] :=
  (generate_input_values_frame "gpt-4" "{x}" [("x", "v")] StrOutputParser
    constProvider).2.2.2.2 (by decide) (by decide) rfl

end Sotopia
